import Mathlib

/-!
Shallow embedding of `espp`'s UDP socket layer
(`src/components/socket/include/udp_socket.hpp`, class `espp::UdpSocket`).

OS socket primitives (`socket`, `bind`, `sendto`, `recvfrom`, `setsockopt`,
`shutdown`, `close`) and the helpers of `socket_common.hpp` are external to the
sampled sources; their outcomes are supplied through explicit environment
records, and the observable calls the methods make are recorded in traces of
events, so that ordering and abort behaviour can be stated and proved.
-/

set_option linter.unusedVariables false

namespace Espp

/-- A payload byte (the C++ code moves `uint8_t` values; values are opaque to
this layer, so plain naturals suffice). -/
abbrev Byte := Nat

/-- `Socket::Info`: an IPv4 address/port pair identifying one end of a
datagram exchange (the Endpoint Descriptor of the spec). -/
structure SocketInfo where
  address : String
  port : Nat
deriving DecidableEq

/-- Modelled from the spec: `Socket::is_valid` lives in `socket_common.hpp`,
which is not among the sampled sources. The spec requires a "valid socket
descriptor" for every operation, and `cleanup()` invalidates the descriptor by
assigning `-1`, so validity is modelled as non-negativity of the descriptor. -/
def Socket.is_valid (fd : Int) : Bool := decide (0 ≤ fd)

/-- Environment for one `recvfrom` call: the OS result (negative on error),
the bytes the OS wrote into the caller's buffer, and the sender address/port
the OS reports alongside them. -/
structure RecvEnv where
  recv_result : Int
  recv_buffer : List Byte
  recv_sender : SocketInfo
deriving DecidableEq

/-- Result of `UdpSocket::receive`: the returned `bool` together with the
final values of the by-reference `data` and `remote_info` arguments. -/
structure RecvOut where
  ok : Bool
  data : List Byte
  remote : SocketInfo
deriving DecidableEq

/-- `UdpSocket::receive(max_num_bytes, data, remote_info)`: fails when the
descriptor is invalid; performs one `recvfrom`; a negative OS result fails and
leaves `data`/`remote_info` as they were; otherwise `data` is assigned the
first `num_bytes_received` bytes of the buffer (`data.assign(buf, buf + n)`)
and `remote_info.update()` refreshes it to the actual sender. -/
def receive (socket_ : Int) (env : RecvEnv) (max_num_bytes : Nat)
    (data : List Byte) (remote_info : SocketInfo) : RecvOut :=
  if !(Socket.is_valid socket_) then ⟨false, data, remote_info⟩
  else if env.recv_result < 0 then ⟨false, data, remote_info⟩
  else ⟨true, env.recv_buffer.take env.recv_result.toNat, env.recv_sender⟩

/-- Claim C2: on a valid socket, when the OS primitive returns a non-negative
count `n`, `receive` succeeds, the output data is exactly the first `n` bytes
the OS delivered, and the remote info is refreshed to the actual sender; when
the primitive returns a negative result, `receive` fails and leaves both
output arguments untouched. -/
theorem receive_correct (socket_ : Int) (env : RecvEnv) (max_num_bytes : Nat)
    (data : List Byte) (remote : SocketInfo)
    (hv : Socket.is_valid socket_ = true) :
    (0 ≤ env.recv_result →
      receive socket_ env max_num_bytes data remote =
        ⟨true, env.recv_buffer.take env.recv_result.toNat, env.recv_sender⟩ ∧
      (env.recv_result.toNat ≤ env.recv_buffer.length →
        (receive socket_ env max_num_bytes data remote).data.length =
          env.recv_result.toNat)) ∧
    (env.recv_result < 0 →
      receive socket_ env max_num_bytes data remote = ⟨false, data, remote⟩) := by
  refine ⟨fun h => ?_, fun h => ?_⟩
  · have h' : ¬ env.recv_result < 0 := not_lt.mpr h
    refine ⟨by simp [receive, hv, h'], fun hlen => ?_⟩
    simp [receive, hv, h', List.length_take, Nat.min_eq_left hlen]
  · simp [receive, hv, h]

/-- Concrete instantiation of `receive_correct`: a valid descriptor, a
4-byte datagram reported with count 4. -/
theorem receive_correct_witness :
    receive 3 ⟨4, [10, 20, 30, 40], ⟨"192.168.1.7", 5000⟩⟩ 16 [] ⟨"", 0⟩ =
      ⟨true, [10, 20, 30, 40], ⟨"192.168.1.7", 5000⟩⟩ := by
  have h := (receive_correct 3 ⟨4, [10, 20, 30, 40], ⟨"192.168.1.7", 5000⟩⟩ 16 []
    ⟨"", 0⟩ (by decide)).1 (by decide)
  exact h.1

/-- `UdpSocket::SendConfig`. The C++ callback member `on_response_callback`
is caller code the socket only invokes; its presence (`nullptr` test) is what
the control flow inspects, so it is modelled as a flag, and an invocation is
recorded as a trace event carrying the bytes handed to it.
`response_timeout` is `std::chrono::duration<float>{0.5f}`; the layer carries
the value opaquely to `setsockopt`, so it is modelled as a rational. -/
structure SendConfig where
  ip_address : String
  port : Nat
  is_multicast_endpoint : Bool := false
  wait_for_response : Bool := false
  response_size : Nat := 0
  has_response_callback : Bool := false
  response_timeout : Rat := 1 / 2
deriving DecidableEq

/-- Observable calls `UdpSocket::send` makes, in source order. -/
inductive SendEvent where
  /-- `Socket::make_multicast(socket_)` -/
  | makeMulticastCall : SendEvent
  /-- `Socket::set_receive_timeout(socket_, t)` -/
  | setRecvTimeoutCall (timeout : Rat) : SendEvent
  /-- the outbound `sendto(socket_, data, ...)` to the resolved endpoint -/
  | sendtoCall (dest : SocketInfo) (payload : List Byte) : SendEvent
  /-- `logger_.warn("Response requested, but response_size=0, ...")` -/
  | logWarnZeroResponseSize : SendEvent
  /-- the response-wait `receive(response_size, ...)` -/
  | recvCall (maxBytes : Nat) : SendEvent
  /-- `send_config.on_response_callback(received_data)` -/
  | respCallbackCall (bytes : List Byte) : SendEvent
deriving DecidableEq

/-- Environment for one `send` call: outcomes of the OS/helper calls it may
make. `recv` feeds the nested `receive` on the wait-for-response path. -/
structure SendEnv where
  make_multicast_ok : Bool
  set_timeout_ok : Bool
  sendto_result : Int
  recv : RecvEnv
deriving DecidableEq

/-- `UdpSocket::send(data, send_config)`, translated clause by clause:
validity check; optional `make_multicast`; `set_receive_timeout` (always);
resolve `server_info` and one `sendto`; early success when not waiting or
when `response_size == 0` (warning); otherwise one `receive` of at most
`response_size` bytes, failure propagating, then the optional response
callback and success. Returns the `bool` result and the event trace. -/
def send (socket_ : Int) (env : SendEnv) (data : List Byte)
    (send_config : SendConfig) : Bool × List SendEvent :=
  if !(Socket.is_valid socket_) then (false, [])
  else
    let t1 : List SendEvent :=
      if send_config.is_multicast_endpoint then [.makeMulticastCall] else []
    if send_config.is_multicast_endpoint && !env.make_multicast_ok then
      (false, t1)
    else
      let t2 := t1 ++ [.setRecvTimeoutCall send_config.response_timeout]
      if !env.set_timeout_ok then (false, t2)
      else
        let server_info : SocketInfo := ⟨send_config.ip_address, send_config.port⟩
        let t3 := t2 ++ [.sendtoCall server_info data]
        if env.sendto_result < 0 then (false, t3)
        else if !send_config.wait_for_response then (true, t3)
        else if send_config.response_size == 0 then
          (true, t3 ++ [.logWarnZeroResponseSize])
        else
          let r := receive socket_ env.recv send_config.response_size [] server_info
          let t4 := t3 ++ [.recvCall send_config.response_size]
          if !r.ok then (false, t4)
          else if send_config.has_response_callback then
            (true, t4 ++ [.respCallbackCall r.data])
          else (true, t4)

/-- Whether a send event is the outbound datagram transmission. -/
def SendEvent.isSendtoCall : SendEvent → Bool
  | .sendtoCall _ _ => true
  | _ => false

/-- Whether a send event is the response-wait receive. -/
def SendEvent.isRecvCall : SendEvent → Bool
  | .recvCall _ => true
  | _ => false

/-- Whether a send event is a response-callback invocation. -/
def SendEvent.isRespCallbackCall : SendEvent → Bool
  | .respCallbackCall _ => true
  | _ => false

set_option maxHeartbeats 800000 in
/-- Claim C4: on a valid socket whose transmission succeeded, if
`wait_for_response` is set but `response_size` is zero, `send` returns success
without attempting any receive and without invoking any response callback; the
misconfiguration is logged as a warning. -/
theorem send_zero_response_size (socket_ : Int) (env : SendEnv) (data : List Byte)
    (cfg : SendConfig)
    (hv : Socket.is_valid socket_ = true)
    (hmc : cfg.is_multicast_endpoint = true → env.make_multicast_ok = true)
    (hto : env.set_timeout_ok = true)
    (hsr : 0 ≤ env.sendto_result)
    (hw : cfg.wait_for_response = true)
    (hrs : cfg.response_size = 0) :
    (send socket_ env data cfg).1 = true ∧
    SendEvent.logWarnZeroResponseSize ∈ (send socket_ env data cfg).2 ∧
    (∀ n, SendEvent.recvCall n ∉ (send socket_ env data cfg).2) ∧
    (∀ bs, SendEvent.respCallbackCall bs ∉ (send socket_ env data cfg).2) := by
  obtain ⟨ip, port, mc, wfr, rsz, hcb, rto⟩ := cfg
  obtain ⟨mok, tok, sres, renv⟩ := env
  cases mc <;>
    simp_all [send, receive, Socket.is_valid, not_lt.mpr, not_le.mpr]

/-- Concrete instantiation of `send_zero_response_size`: valid descriptor,
successful two-byte transmission, `wait_for_response = true`,
`response_size = 0`. -/
theorem send_zero_response_size_witness :
    (send 3 ⟨true, true, 2, ⟨0, [], ⟨"", 0⟩⟩⟩ [1, 2]
        ⟨"10.0.0.1", 4000, false, true, 0, false, 1⟩).1 = true ∧
    SendEvent.logWarnZeroResponseSize ∈
      (send 3 ⟨true, true, 2, ⟨0, [], ⟨"", 0⟩⟩⟩ [1, 2]
        ⟨"10.0.0.1", 4000, false, true, 0, false, 1⟩).2 := by
  have h := send_zero_response_size 3 ⟨true, true, 2, ⟨0, [], ⟨"", 0⟩⟩⟩ [1, 2]
    ⟨"10.0.0.1", 4000, false, true, 0, false, 1⟩
    (by decide) (by decide) rfl (by decide) rfl rfl
  exact ⟨h.1, h.2.1⟩

set_option maxHeartbeats 3200000 in
/-- Claim C3: on a valid socket the observable steps of `send` occur in order,
each aborting with failure before any later step: multicast configuration
(when requested) first; then the receive-timeout configuration, performed even
when `wait_for_response` is false; then exactly one `sendto` carrying `data`
unchanged (a zero-byte payload included), a negative result aborting before
any later step. -/
theorem send_observable_order (socket_ : Int) (env : SendEnv) (data : List Byte)
    (cfg : SendConfig) (hv : Socket.is_valid socket_ = true) :
    (cfg.is_multicast_endpoint = true → env.make_multicast_ok = false →
      send socket_ env data cfg = (false, [.makeMulticastCall])) ∧
    ((cfg.is_multicast_endpoint = true → env.make_multicast_ok = true) →
      SendEvent.setRecvTimeoutCall cfg.response_timeout ∈
        (send socket_ env data cfg).2) ∧
    ((cfg.is_multicast_endpoint = true → env.make_multicast_ok = true) →
      env.set_timeout_ok = false →
      (send socket_ env data cfg).1 = false ∧
      ∀ d p, SendEvent.sendtoCall d p ∉ (send socket_ env data cfg).2) ∧
    ((cfg.is_multicast_endpoint = true → env.make_multicast_ok = true) →
      env.set_timeout_ok = true →
      SendEvent.sendtoCall ⟨cfg.ip_address, cfg.port⟩ data ∈
        (send socket_ env data cfg).2 ∧
      ((send socket_ env data cfg).2.countP SendEvent.isSendtoCall) = 1) ∧
    ((cfg.is_multicast_endpoint = true → env.make_multicast_ok = true) →
      env.set_timeout_ok = true → env.sendto_result < 0 →
      (send socket_ env data cfg).1 = false ∧
      (∀ n, SendEvent.recvCall n ∉ (send socket_ env data cfg).2) ∧
      (∀ bs, SendEvent.respCallbackCall bs ∉ (send socket_ env data cfg).2)) := by
  obtain ⟨ip, port, mc, wfr, rsz, hcb, rto⟩ := cfg
  obtain ⟨mok, tok, sres, renv⟩ := env
  rcases lt_or_le sres 0 with hs | hs <;>
    rcases lt_or_le renv.recv_result 0 with hr | hr <;>
    rcases Nat.eq_zero_or_pos rsz with hz | hz <;>
    cases mc <;> cases mok <;> cases tok <;> cases wfr <;> cases hcb <;>
    simp_all [send, receive, Socket.is_valid, SendEvent.isSendtoCall,
      not_lt.mpr, not_le.mpr, Nat.pos_iff_ne_zero]

/-- Concrete instantiation of `send_observable_order`: non-multicast config,
timeout configuration succeeding, zero-byte payload transmitted with result
0, no response wait. -/
theorem send_observable_order_witness :
    SendEvent.sendtoCall ⟨"239.1.1.1", 5353⟩ [] ∈
      (send 3 ⟨true, true, 0, ⟨0, [], ⟨"", 0⟩⟩⟩ []
        ⟨"239.1.1.1", 5353, false, false, 0, false, 1⟩).2 ∧
    ((send 3 ⟨true, true, 0, ⟨0, [], ⟨"", 0⟩⟩⟩ []
        ⟨"239.1.1.1", 5353, false, false, 0, false, 1⟩).2.countP
      SendEvent.isSendtoCall) = 1 :=
  (send_observable_order 3 ⟨true, true, 0, ⟨0, [], ⟨"", 0⟩⟩⟩ []
    ⟨"239.1.1.1", 5353, false, false, 0, false, 1⟩ (by decide)).2.2.2.1
    (by decide) rfl

set_option maxHeartbeats 1600000 in
/-- Claim C1: on a valid socket with `wait_for_response = true` and
`response_size > 0`, after a successful transmission `send` performs exactly
one receive of at most `response_size` bytes; if that receive fails, `send`
returns failure; if it succeeds and a response callback is registered, the
callback is invoked (an event in the trace of the same call, i.e.
synchronously, before `send` returns) with exactly the bytes the receive
produced, and `send` returns success. -/
theorem send_wait_for_response (socket_ : Int) (env : SendEnv) (data : List Byte)
    (cfg : SendConfig)
    (hv : Socket.is_valid socket_ = true)
    (hmc : cfg.is_multicast_endpoint = true → env.make_multicast_ok = true)
    (hto : env.set_timeout_ok = true)
    (hsr : 0 ≤ env.sendto_result)
    (hw : cfg.wait_for_response = true)
    (hrs : 0 < cfg.response_size) :
    (SendEvent.recvCall cfg.response_size ∈ (send socket_ env data cfg).2 ∧
      ((send socket_ env data cfg).2.countP SendEvent.isRecvCall) = 1) ∧
    (env.recv.recv_result < 0 → (send socket_ env data cfg).1 = false) ∧
    (0 ≤ env.recv.recv_result →
      (send socket_ env data cfg).1 = true ∧
      (cfg.has_response_callback = true →
        SendEvent.respCallbackCall
            (env.recv.recv_buffer.take env.recv.recv_result.toNat) ∈
          (send socket_ env data cfg).2)) := by
  obtain ⟨ip, port, mc, wfr, rsz, hcb, rto⟩ := cfg
  obtain ⟨mok, tok, sres, renv⟩ := env
  rcases lt_or_le renv.recv_result 0 with hr | hr <;>
    cases mc <;> cases hcb <;>
    simp_all [send, receive, Socket.is_valid, SendEvent.isRecvCall,
      not_lt.mpr, not_le.mpr, Nat.pos_iff_ne_zero]

/-- Concrete instantiation of `send_wait_for_response`: a successful
transmission followed by a successful 2-byte response, with a registered
response callback receiving those bytes. -/
theorem send_wait_for_response_witness :
    (send 3 ⟨true, true, 4, ⟨2, [7, 8], ⟨"10.0.0.9", 6000⟩⟩⟩ [1, 2, 3, 4]
        ⟨"10.0.0.9", 6000, false, true, 8, true, 1⟩).1 = true ∧
    SendEvent.respCallbackCall [7, 8] ∈
      (send 3 ⟨true, true, 4, ⟨2, [7, 8], ⟨"10.0.0.9", 6000⟩⟩⟩ [1, 2, 3, 4]
        ⟨"10.0.0.9", 6000, false, true, 8, true, 1⟩).2 := by
  have h := (send_wait_for_response 3 ⟨true, true, 4, ⟨2, [7, 8], ⟨"10.0.0.9", 6000⟩⟩⟩
    [1, 2, 3, 4] ⟨"10.0.0.9", 6000, false, true, 8, true, 1⟩
    (by decide) (by decide) rfl (by decide) rfl (by decide)).2.2 (by decide)
  exact ⟨h.1, h.2 rfl⟩

/-- The per-object state `start_receiving` and `cleanup` read and write:
the descriptor `socket_`; `task_` (`none` while no `Task` object exists,
`some b` once one does, `b` its `is_started()`); the registered receive
callback, compared by identity and therefore modelled as an optional
identifier (`none` = `nullptr`); plus the socket-level binding and the
buffer size the server loop was bound with, which `bind` and the
`task_config.callback` assignment establish. -/
structure UdpState where
  socket_ : Int
  task_ : Option Bool := none
  server_receive_callback_ : Option Nat := none
  bound_port : Option Nat := none
  task_callback_buffer_size : Option Nat := none
deriving DecidableEq

/-- `UdpSocket::ReceiveConfig`; `on_receive_callback` is modelled by
identity (`none` = `nullptr`). -/
structure ReceiveConfig where
  port : Nat
  buffer_size : Nat
  is_multicast_endpoint : Bool := false
  multicast_group : String := ""
  on_receive_callback : Option Nat := none
deriving DecidableEq

/-- Environment for one `start_receiving` call: the `bind` result and the
outcomes of the two multicast helpers. -/
structure StartEnv where
  bind_result : Int
  make_multicast_ok : Bool
  add_multicast_group_ok : Bool
deriving DecidableEq

/-- Observable calls `start_receiving` makes. `receiveAttempt` is in the
alphabet so that "the call does not await a first receive" is statable; the
translation never emits it. -/
inductive StartEvent where
  /-- `bind(socket_, addr, ...)` with the address it was given -/
  | bindCall (addr : String) (port : Nat) : StartEvent
  /-- `Socket::make_multicast(socket_)` -/
  | makeMulticastCall : StartEvent
  /-- `Socket::add_multicast_group(socket_, group)` -/
  | addMulticastGroupCall (group : String) : StartEvent
  /-- `task_->start()` -/
  | taskStartCall : StartEvent
  /-- a blocking receive on the socket -/
  | receiveAttempt : StartEvent
deriving DecidableEq

/-- `UdpSocket::start_receiving(task_config, receive_config)`: rejected while
`task_ && task_->is_started()`; rejected on an invalid descriptor; registers
`server_receive_callback_ = receive_config.on_receive_callback`; binds to
`INADDR_ANY` ("0.0.0.0") on `receive_config.port`, a negative `bind` result
failing; when `is_multicast_endpoint`, runs `make_multicast` then
`add_multicast_group`, either failure aborting; installs
`server_task_function` bound with `buffer_size` as the task callback, makes
and starts the task, and returns true. -/
def start_receiving (st : UdpState) (env : StartEnv)
    (receive_config : ReceiveConfig) : Bool × UdpState × List StartEvent :=
  if st.task_ = some true then (false, st, [])
  else if !(Socket.is_valid st.socket_) then (false, st, [])
  else
    let st1 :=
      { st with server_receive_callback_ := receive_config.on_receive_callback }
    let t1 : List StartEvent := [.bindCall "0.0.0.0" receive_config.port]
    if env.bind_result < 0 then (false, st1, t1)
    else
      let st2 := { st1 with bound_port := some receive_config.port }
      if receive_config.is_multicast_endpoint && !env.make_multicast_ok then
        (false, st2, t1 ++ [.makeMulticastCall])
      else if receive_config.is_multicast_endpoint &&
          !env.add_multicast_group_ok then
        (false, st2, t1 ++ [.makeMulticastCall,
          .addMulticastGroupCall receive_config.multicast_group])
      else
        let t2 :=
          if receive_config.is_multicast_endpoint then
            t1 ++ [.makeMulticastCall,
              .addMulticastGroupCall receive_config.multicast_group]
          else t1
        let st3 := { st2 with
          task_callback_buffer_size := some receive_config.buffer_size,
          task_ := some true }
        (true, st3, t2 ++ [.taskStartCall])

set_option maxHeartbeats 3200000 in
/-- Claim C5: after a `start_receiving` call succeeds the worker is active,
and any second `start_receiving` call on that instance returns failure,
changes nothing of the state the first call established, and performs no
observable action. -/
theorem start_receiving_second_rejected (st : UdpState) (env env' : StartEnv)
    (cfg cfg' : ReceiveConfig)
    (h1 : (start_receiving st env cfg).1 = true) :
    (start_receiving st env cfg).2.1.task_ = some true ∧
    start_receiving (start_receiving st env cfg).2.1 env' cfg' =
      (false, (start_receiving st env cfg).2.1, []) := by
  obtain ⟨sock, tk, cb, bp, tcb⟩ := st
  have htk : tk = none ∨ tk = some false ∨ tk = some true := by
    rcases tk with _ | b
    · exact Or.inl rfl
    · cases b
      · exact Or.inr (Or.inl rfl)
      · exact Or.inr (Or.inr rfl)
  rcases htk with htk | htk | htk <;> subst htk <;>
    rcases le_or_lt 0 sock with hs | hs <;>
    rcases lt_or_le env.bind_result 0 with hb | hb <;>
    cases hm : cfg.is_multicast_endpoint <;>
    cases hmo : env.make_multicast_ok <;>
    cases hag : env.add_multicast_group_ok <;>
    simp_all [start_receiving, Socket.is_valid, not_lt.mpr, not_le.mpr]

/-- Concrete instantiation of `start_receiving_second_rejected`: a fresh
valid socket, a successful non-multicast first call, then a second call. -/
theorem start_receiving_second_rejected_witness :
    (start_receiving ⟨3, none, none, none, none⟩ ⟨0, true, true⟩
        ⟨5000, 128, false, "", some 1⟩).2.1.task_ = some true ∧
    start_receiving
        (start_receiving ⟨3, none, none, none, none⟩ ⟨0, true, true⟩
          ⟨5000, 128, false, "", some 1⟩).2.1 ⟨0, true, true⟩
        ⟨5001, 64, false, "", some 2⟩ =
      (false,
        (start_receiving ⟨3, none, none, none, none⟩ ⟨0, true, true⟩
          ⟨5000, 128, false, "", some 1⟩).2.1, []) :=
  start_receiving_second_rejected ⟨3, none, none, none, none⟩ ⟨0, true, true⟩
    ⟨0, true, true⟩ ⟨5000, 128, false, "", some 1⟩ ⟨5001, 64, false, "", some 2⟩
    (by decide)

set_option maxHeartbeats 1600000 in
/-- Claim C7: a first `start_receiving` call on a valid socket binds to the
wildcard address "0.0.0.0" on the configured port; a bind failure returns
failure before any multicast step; when multicast is requested,
`make_multicast` runs and then the group is joined, either failure returning
failure with the socket still bound; otherwise the server loop is installed
bound with the configured buffer size, the worker is started, and the call
returns success without performing any receive. -/
theorem start_receiving_first_call (st : UdpState) (env : StartEnv)
    (cfg : ReceiveConfig)
    (hna : st.task_ ≠ some true)
    (hv : Socket.is_valid st.socket_ = true) :
    StartEvent.bindCall "0.0.0.0" cfg.port ∈ (start_receiving st env cfg).2.2 ∧
    (env.bind_result < 0 →
      (start_receiving st env cfg).1 = false ∧
      (start_receiving st env cfg).2.2 = [.bindCall "0.0.0.0" cfg.port]) ∧
    (0 ≤ env.bind_result →
      (cfg.is_multicast_endpoint = true → env.make_multicast_ok = false →
        (start_receiving st env cfg).1 = false ∧
        (start_receiving st env cfg).2.1.bound_port = some cfg.port ∧
        (start_receiving st env cfg).2.2 =
          [.bindCall "0.0.0.0" cfg.port, .makeMulticastCall]) ∧
      (cfg.is_multicast_endpoint = true → env.make_multicast_ok = true →
          env.add_multicast_group_ok = false →
        (start_receiving st env cfg).1 = false ∧
        (start_receiving st env cfg).2.1.bound_port = some cfg.port ∧
        (start_receiving st env cfg).2.2 =
          [.bindCall "0.0.0.0" cfg.port, .makeMulticastCall,
            .addMulticastGroupCall cfg.multicast_group]) ∧
      ((cfg.is_multicast_endpoint = true →
          env.make_multicast_ok = true ∧ env.add_multicast_group_ok = true) →
        (start_receiving st env cfg).1 = true ∧
        (start_receiving st env cfg).2.1.bound_port = some cfg.port ∧
        (start_receiving st env cfg).2.1.task_callback_buffer_size =
          some cfg.buffer_size ∧
        (start_receiving st env cfg).2.1.task_ = some true ∧
        StartEvent.taskStartCall ∈ (start_receiving st env cfg).2.2 ∧
        StartEvent.receiveAttempt ∉ (start_receiving st env cfg).2.2)) := by
  obtain ⟨sock, tk, cb, bp, tcb⟩ := st
  rcases lt_or_le env.bind_result 0 with hb | hb <;>
    cases hm : cfg.is_multicast_endpoint <;>
    cases hmo : env.make_multicast_ok <;>
    cases hag : env.add_multicast_group_ok <;>
    simp_all [start_receiving, Socket.is_valid, not_lt.mpr, not_le.mpr]

/-- Concrete instantiation of `start_receiving_first_call`: multicast
requested and both multicast helpers succeeding. -/
theorem start_receiving_first_call_witness :
    (start_receiving ⟨3, none, none, none, none⟩ ⟨0, true, true⟩
        ⟨5000, 128, true, "239.1.1.1", some 1⟩).1 = true ∧
    (start_receiving ⟨3, none, none, none, none⟩ ⟨0, true, true⟩
        ⟨5000, 128, true, "239.1.1.1", some 1⟩).2.1.bound_port = some 5000 ∧
    StartEvent.taskStartCall ∈
      (start_receiving ⟨3, none, none, none, none⟩ ⟨0, true, true⟩
        ⟨5000, 128, true, "239.1.1.1", some 1⟩).2.2 := by
  have h := ((start_receiving_first_call ⟨3, none, none, none, none⟩
    ⟨0, true, true⟩ ⟨5000, 128, true, "239.1.1.1", some 1⟩
    (by decide) (by decide)).2.2 (by decide)).2.2 (by decide)
  exact ⟨h.1, h.2.1, h.2.2.2.2.1⟩

set_option maxHeartbeats 800000 in
/-- Claim C10: when `start_receiving` passes its two precondition checks but
then fails at `bind` or at a multicast-configuration step, the registered
receive callback has already been replaced by the new configuration's
callback: a failed call is not atomic with respect to the registration. -/
theorem start_receiving_callback_replaced_on_failure (st : UdpState)
    (env : StartEnv) (cfg : ReceiveConfig)
    (hna : st.task_ ≠ some true)
    (hv : Socket.is_valid st.socket_ = true)
    (hfail : env.bind_result < 0 ∨
      (0 ≤ env.bind_result ∧ cfg.is_multicast_endpoint = true ∧
        (env.make_multicast_ok = false ∨ env.add_multicast_group_ok = false))) :
    (start_receiving st env cfg).1 = false ∧
    (start_receiving st env cfg).2.1.server_receive_callback_ =
      cfg.on_receive_callback := by
  obtain ⟨sock, tk, cb, bp, tcb⟩ := st
  rcases lt_or_le env.bind_result 0 with hb | hb <;>
    cases hm : cfg.is_multicast_endpoint <;>
    cases hmo : env.make_multicast_ok <;>
    cases hag : env.add_multicast_group_ok <;>
    simp_all [start_receiving, Socket.is_valid, not_lt.mpr, not_le.mpr]

/-- Concrete instantiation of
`start_receiving_callback_replaced_on_failure`: an old callback `some 1` is
replaced by `some 2` although the call fails at `bind`. -/
theorem start_receiving_callback_replaced_on_failure_witness :
    (start_receiving ⟨3, none, some 1, none, none⟩ ⟨-1, true, true⟩
        ⟨5000, 128, false, "", some 2⟩).1 = false ∧
    (start_receiving ⟨3, none, some 1, none, none⟩ ⟨-1, true, true⟩
        ⟨5000, 128, false, "", some 2⟩).2.1.server_receive_callback_ = some 2 :=
  start_receiving_callback_replaced_on_failure ⟨3, none, some 1, none, none⟩
    ⟨-1, true, true⟩ ⟨5000, 128, false, "", some 2⟩ (by decide) (by decide)
    (Or.inl (by decide))

/-- What one server-loop iteration signals to the Background Worker. The
worker abstraction could be told to stop; `UdpSocket::server_task_function`
returns `void` and therefore always yields `continueLoop`, so the worker
re-invokes the loop. -/
inductive LoopOutcome where
  | continueLoop : LoopOutcome
  | stopLoop : LoopOutcome
deriving DecidableEq

/-- Environment for one server-loop iteration: the OS receive outcome, what
the registered callback returns for these bytes (`none` = `std::nullopt`),
and the OS result of the reply `sendto` if one happens. -/
structure ServerEnv where
  recv : RecvEnv
  callback_response : Option (List Byte)
  reply_sendto_result : Int
deriving DecidableEq

/-- Observable actions of one `server_task_function` iteration. -/
inductive ServerEvent where
  /-- the `receive(buffer_size, ...)` attempt -/
  | recvAttempt (bufferSize : Nat) : ServerEvent
  /-- `cv.wait_for(lk, 1ms)`: the bounded backoff sleep, in milliseconds -/
  | backoffSleepMs (ms : Nat) : ServerEvent
  /-- `logger_.error("Server receive callback is invalid")` -/
  | logErrorNoCallback : ServerEvent
  /-- `server_receive_callback_(received_data, sender_info)` -/
  | serverCallbackCall (data : List Byte) (sender : SocketInfo) : ServerEvent
  /-- the reply `sendto(socket_, response, ..., sender_address, ...)` -/
  | sendtoReply (dest : SocketInfo) (payload : List Byte) : ServerEvent
  /-- `logger_.error("Error occurred responding: ...")` -/
  | logErrorReplyFailed : ServerEvent
deriving DecidableEq

/-- Whether a server event is the reply transmission. -/
def ServerEvent.isSendtoReply : ServerEvent → Bool
  | .sendtoReply _ _ => true
  | _ => false

/-- `UdpSocket::server_task_function(buffer_size, m, cv)`: one iteration of
the loop the Background Worker runs. `receive` failure sleeps 1 ms on the
worker's condition variable and returns; a missing callback logs an error and
returns; otherwise the callback is invoked with the received bytes and the
sender info, and when it returns bytes they are sent back to the sender with
one `sendto`, a negative result only being logged. `callback_set` is whether
`server_receive_callback_` is non-null. -/
def server_task_function (socket_ : Int) (callback_set : Bool)
    (env : ServerEnv) (buffer_size : Nat) : LoopOutcome × List ServerEvent :=
  let r := receive socket_ env.recv buffer_size [] ⟨"", 0⟩
  if !r.ok then
    (.continueLoop, [.recvAttempt buffer_size, .backoffSleepMs 1])
  else if !callback_set then
    (.continueLoop, [.recvAttempt buffer_size, .logErrorNoCallback])
  else
    match env.callback_response with
    | none =>
      (.continueLoop,
        [.recvAttempt buffer_size, .serverCallbackCall r.data r.remote])
    | some response =>
      if env.reply_sendto_result < 0 then
        (.continueLoop,
          [.recvAttempt buffer_size, .serverCallbackCall r.data r.remote,
            .sendtoReply r.remote response, .logErrorReplyFailed])
      else
        (.continueLoop,
          [.recvAttempt buffer_size, .serverCallbackCall r.data r.remote,
            .sendtoReply r.remote response])

set_option maxHeartbeats 800000 in
/-- Claim C6: every server-loop iteration hands control back to the worker
(`continueLoop` — the loop never stops itself); a failed receive produces
exactly the receive attempt followed by a bounded 1 ms backoff sleep; and
when the registered callback returns bytes, exactly one reply `sendto` of
those bytes to the actual sender occurs, a negative reply result being logged
without stopping the loop. -/
theorem server_loop_iteration (socket_ : Int) (callback_set : Bool)
    (env : ServerEnv) (buffer_size : Nat) :
    (server_task_function socket_ callback_set env buffer_size).1 =
      LoopOutcome.continueLoop ∧
    (Socket.is_valid socket_ = false ∨ env.recv.recv_result < 0 →
      (server_task_function socket_ callback_set env buffer_size).2 =
        [.recvAttempt buffer_size, .backoffSleepMs 1]) ∧
    (Socket.is_valid socket_ = true → 0 ≤ env.recv.recv_result →
      callback_set = true →
      ∀ r, env.callback_response = some r →
        ServerEvent.sendtoReply env.recv.recv_sender r ∈
          (server_task_function socket_ callback_set env buffer_size).2 ∧
        ((server_task_function socket_ callback_set env buffer_size).2.countP
          ServerEvent.isSendtoReply) = 1 ∧
        (env.reply_sendto_result < 0 →
          ServerEvent.logErrorReplyFailed ∈
            (server_task_function socket_ callback_set env buffer_size).2)) := by
  obtain ⟨renv, cresp, srr⟩ := env
  rcases le_or_lt 0 socket_ with hso | hso <;>
    rcases lt_or_le renv.recv_result 0 with hr | hr <;>
    rcases lt_or_le srr 0 with hsr | hsr <;>
    cases callback_set <;> cases cresp <;>
    simp_all [server_task_function, receive, Socket.is_valid,
      ServerEvent.isSendtoReply, not_lt.mpr, not_le.mpr]

/-- Concrete instantiation of `server_loop_iteration`: a successful receive
of 3 bytes, a callback answering with 2 bytes, and a successful reply. -/
theorem server_loop_iteration_witness :
    (server_task_function 3 true
        ⟨⟨3, [1, 2, 3], ⟨"10.0.0.2", 7000⟩⟩, some [5, 6], 2⟩ 64).1 =
      LoopOutcome.continueLoop ∧
    ServerEvent.sendtoReply ⟨"10.0.0.2", 7000⟩ [5, 6] ∈
      (server_task_function 3 true
        ⟨⟨3, [1, 2, 3], ⟨"10.0.0.2", 7000⟩⟩, some [5, 6], 2⟩ 64).2 := by
  have h := server_loop_iteration 3 true
    ⟨⟨3, [1, 2, 3], ⟨"10.0.0.2", 7000⟩⟩, some [5, 6], 2⟩ 64
  exact ⟨h.1, (h.2.2 rfl (by decide) rfl [5, 6] rfl).1⟩

/-- Environment for `UdpSocket::init()`: the result of the `socket(...)`
allocation and the outcome of `Socket::enable_reuse`. -/
structure InitEnv where
  socket_result : Int
  enable_reuse_ok : Bool
deriving DecidableEq

/-- `UdpSocket::init()`: assigns `socket_ = socket(address_family_,
SOCK_DGRAM, ip_protocol_)`; an invalid descriptor fails; a failed
`Socket::enable_reuse` fails; otherwise succeeds. The constructor calls
`init()` and discards its result, so the descriptor assignment stands either
way; the pair returned is (result, `socket_`). -/
def init (env : InitEnv) : Bool × Int :=
  let socket_ := env.socket_result
  if !(Socket.is_valid socket_) then (false, socket_)
  else if !env.enable_reuse_ok then (false, socket_)
  else (true, socket_)

/-- The descriptor `init` leaves in `socket_` is the allocation result,
whatever the outcome. -/
theorem init_socket (env : InitEnv) : (init env).2 = env.socket_result := by
  cases h1 : Socket.is_valid env.socket_result <;>
    cases h2 : env.enable_reuse_ok <;> simp [init, h1, h2]

/-- Observable calls of `UdpSocket::cleanup()`. -/
inductive CleanupEvent where
  /-- `shutdown(socket_, how)` with the `how` argument it passes -/
  | shutdownCall (how : Nat) : CleanupEvent
  /-- `close(socket_)` -/
  | closeCall : CleanupEvent
deriving DecidableEq

/-- Modelled from the POSIX sockets API (external to this repository):
`shutdown`'s `how` value that disables further receptions only. -/
def SHUT_RD : Nat := 0

/-- Modelled from the POSIX sockets API (external to this repository):
`shutdown`'s `how` value that disables both receptions and transmissions. -/
def SHUT_RDWR : Nat := 2

/-- `UdpSocket::cleanup()`: when the descriptor is valid, `shutdown(socket_,
0)` then `close(socket_)` then `socket_ = -1`; otherwise nothing. -/
def cleanup (st : UdpState) : UdpState × List CleanupEvent :=
  if Socket.is_valid st.socket_ then
    ({ st with socket_ := -1 }, [.shutdownCall 0, .closeCall])
  else (st, [])

/-- `~UdpSocket()`: runs `cleanup()` unconditionally. -/
def destructor (st : UdpState) : UdpState × List CleanupEvent := cleanup st

/-- Counterexample to claim C8 as stated: on a valid descriptor `cleanup`
passes `how = 0` (`SHUT_RD`, receptions only) to `shutdown`, never
`SHUT_RDWR`, so teardown does not shut down both directions. -/
theorem cleanup_not_both_directions :
    (cleanup ⟨3, none, none, none, none⟩).2 =
      [CleanupEvent.shutdownCall SHUT_RD, CleanupEvent.closeCall] ∧
    CleanupEvent.shutdownCall SHUT_RDWR ∉
      (cleanup ⟨3, none, none, none, none⟩).2 := by
  decide

/-- Claim C8 as amended: on a valid descriptor teardown's `cleanup` shuts
down the receive direction (`shutdown` with `how = SHUT_RD`) and closes the
descriptor, invalidating it; the operation is idempotent (a second
invocation is a no-op); and the destructor performs `cleanup` on every
state, whatever prior errors left there. -/
theorem cleanup_shutdown_close (st : UdpState)
    (hv : Socket.is_valid st.socket_ = true) :
    (cleanup st).2 =
      [CleanupEvent.shutdownCall SHUT_RD, CleanupEvent.closeCall] ∧
    Socket.is_valid (cleanup st).1.socket_ = false ∧
    cleanup (cleanup st).1 = ((cleanup st).1, []) ∧
    (∀ st' : UdpState, destructor st' = cleanup st') := by
  have hv' : (0 : Int) ≤ st.socket_ := of_decide_eq_true hv
  refine ⟨?_, ?_, ?_, fun st' => rfl⟩ <;>
    norm_num [cleanup, Socket.is_valid, hv', SHUT_RD]

/-- Concrete instantiation of `cleanup_shutdown_close`: descriptor 3. -/
theorem cleanup_shutdown_close_witness :
    (cleanup ⟨3, none, none, none, none⟩).2 =
      [CleanupEvent.shutdownCall SHUT_RD, CleanupEvent.closeCall] ∧
    cleanup (cleanup ⟨3, none, none, none, none⟩).1 =
      ((cleanup ⟨3, none, none, none, none⟩).1, []) := by
  have h := cleanup_shutdown_close ⟨3, none, none, none, none⟩ (by decide)
  exact ⟨h.1, h.2.2.1⟩

/-- Counterexample to claim C9 as stated: when `socket()` yields descriptor 3
but `enable_reuse` fails, `init` reports failure, yet a subsequent plain
`send` on the object succeeds — the object is not unusable. -/
theorem init_reuse_failure_object_usable :
    (init ⟨3, false⟩).1 = false ∧
    (send (init ⟨3, false⟩).2 ⟨true, true, 0, ⟨0, [], ⟨"", 0⟩⟩⟩ []
      ⟨"10.0.0.1", 4000, false, false, 0, false, 1⟩).1 = true := by
  constructor
  · decide
  · simp [send, init, Socket.is_valid]

/-- Claim C9 as amended: if descriptor allocation fails, `init` fails and
every subsequent `send`, `receive` and `start_receiving` on the object
returns failure; if instead enabling address reuse fails, `init` fails but
the descriptor remains valid, so those operations are not rejected by the
object; in either case teardown is safe: the destructor leaves an invalid
descriptor from any state holding this descriptor. -/
theorem init_failure_behaviour (env : InitEnv) :
    (Socket.is_valid env.socket_result = false →
      (init env).1 = false ∧
      (∀ senv data cfg, (send (init env).2 senv data cfg).1 = false) ∧
      (∀ renv m data remote, (receive (init env).2 renv m data remote).ok = false) ∧
      (∀ st : UdpState, ∀ senv cfg, st.socket_ = (init env).2 →
        st.task_ ≠ some true → (start_receiving st senv cfg).1 = false)) ∧
    (Socket.is_valid env.socket_result = true → env.enable_reuse_ok = false →
      (init env).1 = false ∧ Socket.is_valid (init env).2 = true) ∧
    (∀ st : UdpState, st.socket_ = (init env).2 →
      Socket.is_valid (destructor st).1.socket_ = false) := by
  refine ⟨fun hiv => ?_, fun hv hr => ?_, fun st hst => ?_⟩
  · refine ⟨by simp [init, hiv], fun senv data cfg => by simp [send, init, hiv],
      fun renv m data remote => by simp [receive, init, hiv],
      fun st senv cfg hst hna => ?_⟩
    obtain ⟨sock, tk, cb, bp, tcb⟩ := st
    simp only at hst
    subst hst
    simp [start_receiving, init, hiv, hna]
  · exact ⟨by simp [init, hv, hr], by simp [init, hv, hr]⟩
  · obtain ⟨sock, tk, cb, bp, tcb⟩ := st
    simp only at hst
    subst hst
    rcases le_or_lt 0 env.socket_result with hs | hs
    · norm_num [destructor, cleanup, init_socket, Socket.is_valid, hs]
    · norm_num [destructor, cleanup, init_socket, Socket.is_valid,
        not_le.mpr hs, hs]

/-- Concrete instantiation of `init_failure_behaviour`: `socket()` returns
-1 (allocation failure); `init` fails and a sample `send` on the object
fails. -/
theorem init_failure_behaviour_witness :
    (init ⟨-1, true⟩).1 = false ∧
    (send (init ⟨-1, true⟩).2 ⟨true, true, 0, ⟨0, [], ⟨"", 0⟩⟩⟩ []
      ⟨"10.0.0.1", 4000, false, false, 0, false, 1⟩).1 = false := by
  have h := (init_failure_behaviour ⟨-1, true⟩).1 (by decide)
  exact ⟨h.1, h.2.1 ⟨true, true, 0, ⟨0, [], ⟨"", 0⟩⟩⟩ []
    ⟨"10.0.0.1", 4000, false, false, 0, false, 1⟩⟩

end Espp
